import Mathlib

/-
Verification of the localnode native process bootstrap
(src/linux/main.cc, src/windows/runner/main.cpp, src/windows/runner/utils.cpp).

The embedding models the console and environment state that the bootstrap
reads and mutates. Win32 and glib calls that can fail are modelled by
boolean success parameters gathered in environment structures; the console
input driver flag word (a DWORD) is modelled as a natural number combined
with bitwise or.
-/

namespace LocalNode

/-- modes of the process, determined once from argv (spec section 3). -/
inductive ProcessMode where
  | GUI
  | CLI
deriving DecidableEq, Repr

/-- result of the console stream binder on the CLI path (spec section 3). -/
inductive ConsoleBindingResult where
  | AttachedToParent
  | AllocatedNew
  | Unavailable
deriving DecidableEq, Repr

/-- tests one command-line token against the three mode-selecting flags,
exactly as the comparisons in HasCliFlag (src/windows/runner/utils.cpp,
lines 100-101) and in the loop of main (src/linux/main.cc, lines 56-57):
case-sensitive whole-token equality. -/
def isCliToken (s : String) : Bool :=
  s = "--cli" || s = "--help" || s = "-h"

/-- embeds HasCliFlag (src/windows/runner/utils.cpp, lines 92-108) and the
identical detection loop in src/linux/main.cc, lines 55-61: scan the
argument tokens after the program name for a mode-selecting flag. The
argument list here already excludes the program name, matching the loops
that start at index 1. -/
def hasCliFlag (args : List String) : Bool :=
  args.any isCliToken

/-- the process mode as every downstream component sees it: CLI exactly when
a mode-selecting flag is present. -/
def detectMode (args : List String) : ProcessMode :=
  if hasCliFlag args then ProcessMode.CLI else ProcessMode.GUI

/-- C1: the mode detector reports CLI if and only if some token equals
"--cli", "--help" or "-h" exactly, and reports GUI on every other list. -/
theorem detectMode_cli_iff (args : List String) :
    (detectMode args = ProcessMode.CLI ↔
      ∃ t ∈ args, t = "--cli" ∨ t = "--help" ∨ t = "-h") ∧
    (detectMode args = ProcessMode.GUI ↔
      ¬ ∃ t ∈ args, t = "--cli" ∨ t = "--help" ∨ t = "-h") := by
  have h : hasCliFlag args = true ↔
      ∃ t ∈ args, t = "--cli" ∨ t = "--help" ∨ t = "-h" := by
    simp only [hasCliFlag, isCliToken, List.any_eq_true, Bool.or_eq_true,
      decide_eq_true_eq, or_assoc]
  constructor
  · rw [← h]
    unfold detectMode
    by_cases hc : hasCliFlag args = true <;> simp [hc]
  · rw [← h]
    unfold detectMode
    by_cases hc : hasCliFlag args = true <;> simp [hc]

/-- flag bit ENABLE_PROCESSED_INPUT of the Win32 console input mode. -/
def ENABLE_PROCESSED_INPUT : Nat := 1

/-- flag bit ENABLE_LINE_INPUT of the Win32 console input mode. -/
def ENABLE_LINE_INPUT : Nat := 2

/-- flag bit ENABLE_ECHO_INPUT of the Win32 console input mode. -/
def ENABLE_ECHO_INPUT : Nat := 4

/-- the three flags that SetupConsoleInput ors into the console input mode
(src/windows/runner/utils.cpp, lines 40-41). -/
def interactiveFlags : Nat :=
  ENABLE_PROCESSED_INPUT ||| ENABLE_ECHO_INPUT ||| ENABLE_LINE_INPUT

/-- state of the Win32 console input driver and of the two module-level
globals of src/windows/runner/utils.cpp. The field stdInValid records
whether GetStdHandle for standard input yields a usable console handle;
SetupConsoleInput turns it on via SetStdHandle after opening CONIN$. -/
structure ConsoleState where
  inputMode : Nat
  stdInValid : Bool
  savedConsoleInputMode : Nat
  consoleModesSaved : Bool
deriving DecidableEq, Repr

/-- success and configuration bits of the Win32 calls the runner makes; each
field stands for one fallible call or ambient condition. -/
structure WinEnv where
  conInOpenOk : Bool
  getConsoleModeOk : Bool
  attachParentOk : Bool
  allocConsoleOk : Bool
  debuggerPresent : Bool
  windowCreateOk : Bool
deriving DecidableEq, Repr

/-- embeds SetupConsoleInput (src/windows/runner/utils.cpp, lines 17-43):
open CONIN$ (give up on failure), make it the standard input handle, then,
when GetConsoleMode succeeds, store the current mode in the globals and set
the mode to its old value ored with the three interactive flags. -/
def setupConsoleInput (env : WinEnv) (s : ConsoleState) : ConsoleState :=
  if env.conInOpenOk then
    let s1 : ConsoleState := { s with stdInValid := true }
    if env.getConsoleModeOk then
      { s1 with
          savedConsoleInputMode := s1.inputMode
          consoleModesSaved := true
          inputMode := s1.inputMode ||| interactiveFlags }
    else s1
  else s

/-- embeds SaveConsoleInputMode (src/windows/runner/utils.cpp, lines 45-52):
when the standard input handle is valid and no capture is held yet, a
successful GetConsoleMode stores the current mode and marks the capture
held. -/
def saveConsoleInputMode (env : WinEnv) (s : ConsoleState) : ConsoleState :=
  if s.stdInValid && !s.consoleModesSaved then
    if env.getConsoleModeOk then
      { s with savedConsoleInputMode := s.inputMode, consoleModesSaved := true }
    else s
  else s

/-- embeds RestoreConsoleInputMode (src/windows/runner/utils.cpp, lines
54-60): return at once when no capture is held; otherwise write the saved
mode back when the standard input handle is valid. -/
def restoreConsoleInputMode (s : ConsoleState) : ConsoleState :=
  if !s.consoleModesSaved then s
  else if s.stdInValid then { s with inputMode := s.savedConsoleInputMode }
  else s

/-- embeds AttachParentConsole (src/windows/runner/utils.cpp, lines 78-90):
when AttachConsole on the parent succeeds, rebind the standard streams and
run SetupConsoleInput, returning true; otherwise return false with nothing
changed. Stream rebinding and buffered-IO resync have no flag effect, so
only the SetupConsoleInput part touches the modelled state. -/
def attachParentConsole (env : WinEnv) (s : ConsoleState) :
    Bool × ConsoleState :=
  if env.attachParentOk then (true, setupConsoleInput env s) else (false, s)

/-- embeds CreateAndAttachConsole (src/windows/runner/utils.cpp, lines
62-76): when AllocConsole succeeds, rebind the standard streams and run
SetupConsoleInput; on failure nothing happens. -/
def createAndAttachConsole (env : WinEnv) (s : ConsoleState) : ConsoleState :=
  if env.allocConsoleOk then setupConsoleInput env s else s

/-- the console acquisition of the CLI path of wWinMain
(src/windows/runner/main.cpp, lines 17-19): try the parent console first and
allocate a fresh one only when the attach fails, paired with the
ConsoleBindingResult the spec assigns to each outcome. -/
def cliConsoleBinding (env : WinEnv) (s : ConsoleState) :
    ConsoleBindingResult × ConsoleState :=
  match attachParentConsole env s with
  | (true, s1) => (ConsoleBindingResult.AttachedToParent, s1)
  | (false, s1) =>
    if env.allocConsoleOk then
      (ConsoleBindingResult.AllocatedNew, createAndAttachConsole env s1)
    else (ConsoleBindingResult.Unavailable, createAndAttachConsole env s1)

/-- outcome of one run of the wWinMain body, before the atexit handlers
fire: the value returned by wWinMain, the console state at that point,
the binding result of the CLI path when that path ran, and whether
RestoreConsoleInputMode was registered with atexit. -/
structure RunResult where
  exitCode : Nat
  finalState : ConsoleState
  binding : Option ConsoleBindingResult
  atexitRegistered : Bool
deriving DecidableEq, Repr

/-- embeds the body of wWinMain (src/windows/runner/main.cpp, lines 8-67) up
to its return: in CLI mode register the restore handler and bind a console;
in GUI mode allocate a console only when the parent attach fails and a
debugger is present (the GUI attach alone rebinds no streams and runs no
SetupConsoleInput). Window creation failure returns EXIT_FAILURE early;
otherwise the message loop runs and the body returns EXIT_SUCCESS. -/
def wWinMainBody (env : WinEnv) (args : List String) (s : ConsoleState) :
    RunResult :=
  if hasCliFlag args then
    let bs := cliConsoleBinding env s
    if env.windowCreateOk then
      { exitCode := 0, finalState := bs.2, binding := some bs.1,
        atexitRegistered := true }
    else
      { exitCode := 1, finalState := bs.2, binding := some bs.1,
        atexitRegistered := true }
  else
    let s1 :=
      if !env.attachParentOk && env.debuggerPresent then
        createAndAttachConsole env s
      else s
    if env.windowCreateOk then
      { exitCode := 0, finalState := s1, binding := none,
        atexitRegistered := false }
    else
      { exitCode := 1, finalState := s1, binding := none,
        atexitRegistered := false }

/-- process termination after the body returns: the C runtime runs the
registered atexit handlers, so RestoreConsoleInputMode fires exactly when it
was registered. -/
def processExit (r : RunResult) : ConsoleState :=
  if r.atexitRegistered then restoreConsoleInputMode r.finalState
  else r.finalState

/-- a full run of the Windows process: the wWinMain body followed by the
atexit handlers, yielding the exit code and the console state left behind. -/
def wWinMain (env : WinEnv) (args : List String) (s : ConsoleState) :
    Nat × ConsoleState :=
  let r := wWinMainBody env args s
  (r.exitCode, processExit r)

/-- C4: for every initial console input flag state, running the capture and
interactive-flag application of SetupConsoleInput and then
RestoreConsoleInputMode leaves the console input flags exactly equal to the
pre-capture snapshot, whenever the CONIN$ open and the mode read that the
capture consists of succeed. -/
theorem setup_then_restore_roundtrip (env : WinEnv) (s : ConsoleState)
    (hopen : env.conInOpenOk = true) (hmode : env.getConsoleModeOk = true) :
    (restoreConsoleInputMode (setupConsoleInput env s)).inputMode =
      s.inputMode := by
  simp [setupConsoleInput, restoreConsoleInputMode, hopen, hmode]

/-- C4 witness: the round trip at a concrete environment and a concrete
initial mode. -/
theorem setup_then_restore_roundtrip_witness :
    (restoreConsoleInputMode (setupConsoleInput
      ⟨true, true, true, true, false, true⟩
      ⟨5, false, 0, false⟩)).inputMode = 5 :=
  setup_then_restore_roundtrip ⟨true, true, true, true, false, true⟩
    ⟨5, false, 0, false⟩ rfl rfl

/-- C5: SaveConsoleInputMode run twice in succession equals it run once, and
while a capture is already held a further call changes nothing at all, so
the original snapshot is never overwritten. -/
theorem saveConsoleInputMode_idempotent (env : WinEnv) (s : ConsoleState) :
    saveConsoleInputMode env (saveConsoleInputMode env s) =
      saveConsoleInputMode env s ∧
    (s.consoleModesSaved = true → saveConsoleInputMode env s = s) := by
  rcases s with ⟨m, v, sv, cs⟩
  cases v <;> cases cs <;> cases hg : env.getConsoleModeOk <;>
    simp [saveConsoleInputMode, hg]

/-- C5 witness: idempotence at a concrete fresh state, and the no-op at a
concrete state whose capture is already held. -/
theorem saveConsoleInputMode_idempotent_witness :
    saveConsoleInputMode ⟨true, true, true, true, false, true⟩
        (saveConsoleInputMode ⟨true, true, true, true, false, true⟩
          ⟨5, true, 0, false⟩) =
      saveConsoleInputMode ⟨true, true, true, true, false, true⟩
        ⟨5, true, 0, false⟩ ∧
    saveConsoleInputMode ⟨true, true, true, true, false, true⟩
        ⟨9, true, 3, true⟩ = ⟨9, true, 3, true⟩ :=
  ⟨(saveConsoleInputMode_idempotent ⟨true, true, true, true, false, true⟩
      ⟨5, true, 0, false⟩).1,
   (saveConsoleInputMode_idempotent ⟨true, true, true, true, false, true⟩
      ⟨9, true, 3, true⟩).2 rfl⟩

/-- C6: RestoreConsoleInputMode before any capture is a no-op that mutates
nothing; when a capture is held and the input handle is valid it writes the
originally captured flags back; it never changes the stored snapshot or the
capture flag, and a repeated call equals a single call. -/
theorem restoreConsoleInputMode_spec (s : ConsoleState) :
    (s.consoleModesSaved = false → restoreConsoleInputMode s = s) ∧
    (s.consoleModesSaved = true → s.stdInValid = true →
      (restoreConsoleInputMode s).inputMode = s.savedConsoleInputMode) ∧
    (restoreConsoleInputMode s).savedConsoleInputMode =
      s.savedConsoleInputMode ∧
    (restoreConsoleInputMode s).consoleModesSaved = s.consoleModesSaved ∧
    restoreConsoleInputMode (restoreConsoleInputMode s) =
      restoreConsoleInputMode s := by
  rcases s with ⟨m, v, sv, cs⟩
  cases v <;> cases cs <;> simp [restoreConsoleInputMode]

/-- C6 witness: the no-op at a concrete capture-free state and the write of
the captured flags at a concrete capture-held state. -/
theorem restoreConsoleInputMode_spec_witness :
    restoreConsoleInputMode ⟨9, true, 3, false⟩ = ⟨9, true, 3, false⟩ ∧
    (restoreConsoleInputMode ⟨9, true, 3, true⟩).inputMode = 3 :=
  ⟨(restoreConsoleInputMode_spec ⟨9, true, 3, false⟩).1 rfl,
   (restoreConsoleInputMode_spec ⟨9, true, 3, true⟩).2.1 rfl rfl⟩

/-- helper: the console acquisition of the CLI path either runs
SetupConsoleInput once or leaves the state untouched. -/
lemma cliConsoleBinding_state (env : WinEnv) (s : ConsoleState) :
    (cliConsoleBinding env s).2 = setupConsoleInput env s ∨
    (cliConsoleBinding env s).2 = s := by
  by_cases ha : env.attachParentOk <;> by_cases hb : env.allocConsoleOk <;>
    simp [cliConsoleBinding, attachParentConsole, createAndAttachConsole,
      ha, hb]

/-- helper: when SetupConsoleInput turns the capture flag on starting from a
capture-free state, the stored snapshot is the pre-capture input mode and
the standard input handle became valid. -/
lemma setupConsoleInput_capture (env : WinEnv) (s : ConsoleState)
    (h : s.consoleModesSaved = false)
    (hc : (setupConsoleInput env s).consoleModesSaved = true) :
    (setupConsoleInput env s).savedConsoleInputMode = s.inputMode ∧
    (setupConsoleInput env s).stdInValid = true := by
  by_cases ho : env.conInOpenOk <;> by_cases hm : env.getConsoleModeOk <;>
    simp [setupConsoleInput, ho, hm] at hc ⊢ <;> simp_all

/-- helper: on the CLI path the wWinMain body always registers the restore
handler and leaves the state of the console acquisition, whichever way
window creation goes. -/
lemma wWinMainBody_cli (env : WinEnv) (args : List String) (s : ConsoleState)
    (hcli : hasCliFlag args = true) :
    (wWinMainBody env args s).finalState = (cliConsoleBinding env s).2 ∧
    (wWinMainBody env args s).atexitRegistered = true := by
  cases hw : env.windowCreateOk <;> simp [wWinMainBody, hcli, hw]

/-- C2 counterexample: a GUI-mode run with a debugger present and no parent
console captures the console input mode (the saved flag becomes held), yet
at process exit the flags are left at 7 instead of the captured 0, because
the restore handler is registered on the CLI path only. -/
theorem gui_capture_not_restored :
    (wWinMainBody ⟨true, true, false, true, true, true⟩ []
        ⟨0, true, 0, false⟩).finalState.consoleModesSaved = true ∧
    (wWinMain ⟨true, true, false, true, true, true⟩ []
        ⟨0, true, 0, false⟩).2.inputMode = 7 ∧
    (wWinMain ⟨true, true, false, true, true, true⟩ []
        ⟨0, true, 0, false⟩).2.inputMode ≠ (0 : Nat) := by
  decide

/-- C2 amended: in every CLI-mode run that starts from a fresh capture-free
state, if the capture flag is held when the body returns then the atexit
handler restores the originally captured console input flags at process
exit, on the normal path and on the window-creation-failure path alike. -/
theorem cli_capture_always_restored (env : WinEnv) (args : List String)
    (m sv : Nat) (v : Bool) (hcli : hasCliFlag args = true)
    (hcap : (wWinMainBody env args
      ⟨m, v, sv, false⟩).finalState.consoleModesSaved = true) :
    (wWinMain env args ⟨m, v, sv, false⟩).2.inputMode = m := by
  obtain ⟨hf, hr⟩ := wWinMainBody_cli env args ⟨m, v, sv, false⟩ hcli
  rcases cliConsoleBinding_state env ⟨m, v, sv, false⟩ with hs | hs
  · rw [hf, hs] at hcap
    obtain ⟨h1, h2⟩ := setupConsoleInput_capture env ⟨m, v, sv, false⟩ rfl hcap
    simp [wWinMain, processExit, hr, hf, hs, restoreConsoleInputMode,
      hcap, h2, h1]
  · rw [hf, hs] at hcap
    simp at hcap

/-- C2 amended witness: a concrete CLI run with a parent console available,
starting from mode 5, exits with the flags back at 5. -/
theorem cli_capture_always_restored_witness :
    (wWinMain ⟨true, true, true, true, false, true⟩ ["--cli"]
      ⟨5, false, 0, false⟩).2.inputMode = 5 :=
  cli_capture_always_restored ⟨true, true, true, true, false, true⟩
    ["--cli"] 5 0 false (by decide) (by decide)

/-- C7: on the CLI path the binder reports AttachedToParent exactly when the
parent attach succeeds, reports AllocatedNew exactly when the parent attach
fails and the fresh allocation succeeds, and even when both fail the process
continues: its exit code is decided by window creation alone. -/
theorem cli_console_binding_spec (env : WinEnv) (args : List String)
    (s : ConsoleState) (hcli : hasCliFlag args = true) :
    ((cliConsoleBinding env s).1 = ConsoleBindingResult.AttachedToParent ↔
      env.attachParentOk = true) ∧
    ((cliConsoleBinding env s).1 = ConsoleBindingResult.AllocatedNew ↔
      env.attachParentOk = false ∧ env.allocConsoleOk = true) ∧
    ((cliConsoleBinding env s).1 = ConsoleBindingResult.Unavailable ↔
      env.attachParentOk = false ∧ env.allocConsoleOk = false) ∧
    (wWinMain env args s).1 = (if env.windowCreateOk then 0 else 1) := by
  refine ⟨?_, ?_, ?_, ?_⟩ <;>
    [skip; skip; skip;
     cases hw : env.windowCreateOk <;>
       simp [wWinMain, wWinMainBody, processExit, hcli, hw]] <;>
    by_cases ha : env.attachParentOk <;> by_cases hb : env.allocConsoleOk <;>
      simp [cliConsoleBinding, attachParentConsole, ha, hb]

/-- C7 witness: with both the parent attach and the allocation failing on a
concrete CLI run, the binder reports Unavailable and the process still runs
to a normal exit code 0. -/
theorem cli_console_binding_spec_witness :
    (cliConsoleBinding ⟨false, false, false, false, false, true⟩
        ⟨0, false, 0, false⟩).1 = ConsoleBindingResult.Unavailable ∧
    (wWinMain ⟨false, false, false, false, false, true⟩ ["--cli"]
        ⟨0, false, 0, false⟩).1 = 0 := by
  have h := cli_console_binding_spec ⟨false, false, false, false, false, true⟩
    ["--cli"] ⟨0, false, 0, false⟩ (by decide)
  exact ⟨h.2.2.1.mpr ⟨rfl, rfl⟩, h.2.2.2⟩

/-- C9: the Windows process exits with code 0 exactly when window creation
succeeds and the message loop runs to its normal end, and with the non-zero
code 1 exactly when window creation fails, in both modes. -/
theorem exit_code_spec (env : WinEnv) (args : List String)
    (s : ConsoleState) :
    ((wWinMain env args s).1 = 0 ↔ env.windowCreateOk = true) ∧
    ((wWinMain env args s).1 = 1 ↔ env.windowCreateOk = false) := by
  cases hc : hasCliFlag args <;> cases hw : env.windowCreateOk <;>
    simp [wWinMain, wWinMainBody, processExit, hc, hw]

/-- environment variables the Linux bootstrap reads or writes, each None
when unset. DISPLAY and WAYLAND_DISPLAY are carried so that claims about
display indicators can be stated; the source of src/linux/main.cc never
reads them. -/
structure LinuxEnv where
  display : Option String
  waylandDisplay : Option String
  gdkBackend : Option String
  fontconfigFile : Option String
deriving DecidableEq, Repr

/-- success bits of the filesystem calls of setup_bundled_fonts
(src/linux/main.cc, lines 12-49). -/
structure LinuxFs where
  exeLinkOk : Bool
  fontsDirExists : Bool
  writeConfOk : Bool
deriving DecidableEq, Repr

/-- state the Linux bootstrap threads through: the environment plus a record
of whether the bootstrap wrote its own fonts.conf file. -/
structure LinuxState where
  env : LinuxEnv
  wroteFontsConf : Bool
deriving DecidableEq, Repr

/-- semantics of setenv and g_setenv with overwrite false, as called at
src/linux/main.cc lines 45 and 58: a present value is kept, an absent one
is filled in. -/
def setenvNoOverwrite (cur : Option String) (v : String) : Option String :=
  match cur with
  | some w => some w
  | none => some v

/-- path of the generated fontconfig file, g_get_tmp_dir joined with the
fixed file name at src/linux/main.cc lines 42-43, with the temporary
directory modelled as /tmp. -/
def fontsConfPath : String := "/tmp/localnode-fonts.conf"

/-- embeds setup_bundled_fonts (src/linux/main.cc, lines 12-49): return at
once when FONTCONFIG_FILE is already set; return when the executable link
cannot be read or no bundled fonts directory exists; otherwise write the
generated fonts.conf and, only when that write succeeds, point
FONTCONFIG_FILE at it without overwriting. -/
def setupBundledFonts (fs : LinuxFs) (s : LinuxState) : LinuxState :=
  if s.env.fontconfigFile.isSome then s
  else if !fs.exeLinkOk then s
  else if !fs.fontsDirExists then s
  else if fs.writeConfOk then
    { s with
        wroteFontsConf := true
        env := { s.env with
          fontconfigFile :=
            setenvNoOverwrite s.env.fontconfigFile fontsConfPath } }
  else { s with wroteFontsConf := true }

/-- embeds main (src/linux/main.cc, lines 51-68): when any mode-selecting
flag is among the arguments, set GDK_BACKEND to offscreen without
overwriting a present value, then run setup_bundled_fonts and hand off to
the application. The display-indicator variables are not consulted. -/
def linuxMain (fs : LinuxFs) (args : List String) (s : LinuxState) :
    LinuxState :=
  let s1 :=
    if hasCliFlag args then
      { s with env := { s.env with
          gdkBackend := setenvNoOverwrite s.env.gdkBackend "offscreen" } }
    else s
  setupBundledFonts fs s1

/-- a concrete Linux start state with the primary display indicator present
and the backend directive unset. -/
def displayPresentState : LinuxState :=
  { env := { display := some ":0", waylandDisplay := none,
             gdkBackend := none, fontconfigFile := some "/home/u/fc.conf" },
    wroteFontsConf := false }

/-- C3 counterexample: in a CLI run whose primary display indicator is
present, the code still sets the offscreen backend directive, against the
claim that a present indicator leaves it unset. -/
theorem cli_backend_set_despite_display :
    displayPresentState.env.display = some ":0" ∧
    displayPresentState.env.gdkBackend = none ∧
    (linuxMain ⟨true, true, true⟩ ["--cli"]
        displayPresentState).env.gdkBackend = some "offscreen" := by
  constructor
  · rfl
  constructor
  · rfl
  · rfl

/-- C3 amended: in CLI mode the bootstrap sets the offscreen backend
directive whenever it was unset, regardless of the display-indicator
variables, and in GUI mode it never touches the directive. -/
theorem cli_backend_directive (fs : LinuxFs) (args : List String)
    (s : LinuxState) :
    (hasCliFlag args = true → s.env.gdkBackend = none →
      (linuxMain fs args s).env.gdkBackend = some "offscreen") ∧
    (hasCliFlag args = false →
      (linuxMain fs args s).env.gdkBackend = s.env.gdkBackend) := by
  rcases fs with ⟨e, d, w⟩
  constructor
  · intro hc hb
    cases e <;> cases d <;> cases w <;>
      simp [linuxMain, setupBundledFonts, setenvNoOverwrite, hc, hb] <;>
      cases hf : s.env.fontconfigFile.isSome <;> simp [hf]
  · intro hc
    cases e <;> cases d <;> cases w <;>
      simp [linuxMain, setupBundledFonts, setenvNoOverwrite, hc] <;>
      cases hf : s.env.fontconfigFile.isSome <;> simp [hf]

/-- C3 amended witness: a concrete CLI run with the display indicator
present gets the directive, and a concrete GUI run leaves it unset. -/
theorem cli_backend_directive_witness :
    (linuxMain ⟨true, true, true⟩ ["--cli"]
        displayPresentState).env.gdkBackend = some "offscreen" ∧
    (linuxMain ⟨true, true, true⟩ ["run"]
        displayPresentState).env.gdkBackend = none :=
  ⟨(cli_backend_directive ⟨true, true, true⟩ ["--cli"]
      displayPresentState).1 (by decide) rfl,
   (cli_backend_directive ⟨true, true, true⟩ ["run"]
      displayPresentState).2 (by decide)⟩

/-- C8: a pre-set backend directive survives any run with its original
value, whatever the display indicators, and a pre-set FONTCONFIG_FILE both
survives and switches off every font-environment mutation of the
bootstrap. -/
theorem no_overwrite_of_user_env (fs : LinuxFs) (args : List String)
    (s : LinuxState) :
    (∀ v, s.env.gdkBackend = some v →
      (linuxMain fs args s).env.gdkBackend = some v) ∧
    (∀ w, s.env.fontconfigFile = some w →
      (linuxMain fs args s).env.fontconfigFile = some w ∧
      (linuxMain fs args s).wroteFontsConf = s.wroteFontsConf) := by
  rcases fs with ⟨e, d, w⟩
  constructor
  · intro v hv
    cases hc : hasCliFlag args <;> cases e <;> cases d <;> cases w <;>
      simp [linuxMain, setupBundledFonts, setenvNoOverwrite, hc, hv] <;>
      cases hf : s.env.fontconfigFile.isSome <;> simp [hf, hv]
  · intro u hu
    have hsome : s.env.fontconfigFile.isSome = true := by
      simp [hu]
    cases hc : hasCliFlag args <;> cases e <;> cases d <;> cases w <;>
      simp [linuxMain, setupBundledFonts, setenvNoOverwrite, hc, hu, hsome]

/-- C8 witness: a concrete run in which both variables are pre-set leaves
both values intact and writes no fonts.conf. -/
theorem no_overwrite_of_user_env_witness :
    (linuxMain ⟨true, true, true⟩ ["--cli"]
        { env := { display := none, waylandDisplay := none,
                   gdkBackend := some "x11", fontconfigFile := some "/e/f" },
          wroteFontsConf := false }).env.gdkBackend = some "x11" ∧
    (linuxMain ⟨true, true, true⟩ ["--cli"]
        { env := { display := none, waylandDisplay := none,
                   gdkBackend := some "x11", fontconfigFile := some "/e/f" },
          wroteFontsConf := false }).env.fontconfigFile = some "/e/f" ∧
    (linuxMain ⟨true, true, true⟩ ["--cli"]
        { env := { display := none, waylandDisplay := none,
                   gdkBackend := some "x11", fontconfigFile := some "/e/f" },
          wroteFontsConf := false }).wroteFontsConf = false :=
  ⟨(no_overwrite_of_user_env ⟨true, true, true⟩ ["--cli"] _).1 "x11" rfl,
   ((no_overwrite_of_user_env ⟨true, true, true⟩ ["--cli"] _).2 "/e/f" rfl).1,
   ((no_overwrite_of_user_env ⟨true, true, true⟩ ["--cli"] _).2 "/e/f" rfl).2⟩

/-- modulus of the unsigned int arithmetic in Utf8FromUtf16. -/
def UINT_MOD : Nat := 2 ^ 32

/-- results of the two WideCharToMultiByte calls and the ambient string
capacity that Utf8FromUtf16 (src/windows/runner/utils.cpp, lines 130-151)
interacts with: probeResult is the return of the sizing call (zero on
failure, otherwise the UTF-8 length including the terminator), convResult
the return of the converting call (zero on failure), convOutput the bytes
the converting call fills in on success, and maxSize the capacity bound of
the target string. -/
structure Utf16ConvEnv where
  probeResult : Nat
  convResult : Nat
  convOutput : String
  maxSize : Nat
deriving DecidableEq, Repr

/-- the target length Utf8FromUtf16 computes at lines 134-137: the sizing
call minus one, in unsigned int arithmetic, so a failing sizing call that
returned zero wraps around to 4294967295. -/
def utf16TargetLength (e : Utf16ConvEnv) : Nat :=
  (e.probeResult + (UINT_MOD - 1)) % UINT_MOD

/-- embeds Utf8FromUtf16 (src/windows/runner/utils.cpp, lines 130-151): a
null input yields the empty string; a zero or over-capacity target length
yields the empty string before any conversion; a failing converting call
yields a fresh empty string; otherwise the converted bytes are returned.
The input is a nullable wide string whose characters the model never
inspects, since the conversion itself lives in the two modelled calls. -/
def utf8FromUtf16 (e : Utf16ConvEnv) (input : Option (List Nat)) : String :=
  match input with
  | none => ""
  | some _ =>
    if utf16TargetLength e = 0 || utf16TargetLength e > e.maxSize then ""
    else if e.convResult = 0 then ""
    else e.convOutput

/-- C10: the argument conversion is total: a null pointer yields the empty
string, a zero computed target length yields the empty string, a failing
converting call yields the empty string, and every input yields either the
empty string or the converted bytes. -/
theorem utf8FromUtf16_total (e : Utf16ConvEnv) (input : Option (List Nat)) :
    (input = none → utf8FromUtf16 e input = "") ∧
    (utf16TargetLength e = 0 → utf8FromUtf16 e input = "") ∧
    (e.convResult = 0 → utf8FromUtf16 e input = "") ∧
    (utf8FromUtf16 e input = "" ∨ utf8FromUtf16 e input = e.convOutput) := by
  rcases input with _ | w
  · simp [utf8FromUtf16]
  · refine ⟨by simp, ?_, ?_, ?_⟩
    · intro h
      simp [utf8FromUtf16, h]
    · intro h
      by_cases hg : utf16TargetLength e = 0 || utf16TargetLength e > e.maxSize <;>
        simp [utf8FromUtf16, hg, h]
    · by_cases hg : utf16TargetLength e = 0 || utf16TargetLength e > e.maxSize
      · left
        simp [utf8FromUtf16, hg]
      · by_cases hc : e.convResult = 0
        · left
          simp [utf8FromUtf16, hg, hc]
        · right
          simp [utf8FromUtf16, hg, hc]

/-- C10 witness: the empty string at a concrete null input, at a concrete
environment whose sizing call reports length one (target length zero), and
at a concrete environment whose converting call fails. -/
theorem utf8FromUtf16_total_witness :
    utf8FromUtf16 ⟨5, 3, "abcd", 1000⟩ none = "" ∧
    utf8FromUtf16 ⟨1, 3, "abcd", 1000⟩ (some [65]) = "" ∧
    utf8FromUtf16 ⟨5, 0, "abcd", 1000⟩ (some [65]) = "" :=
  ⟨(utf8FromUtf16_total ⟨5, 3, "abcd", 1000⟩ none).1 rfl,
   (utf8FromUtf16_total ⟨1, 3, "abcd", 1000⟩ (some [65])).2.1 (by decide),
   (utf8FromUtf16_total ⟨5, 0, "abcd", 1000⟩ (some [65])).2.2.1 rfl⟩

end LocalNode
